import Mathlib

/-!
Shallow embedding of the property match-scoring and ranking service
(`matchingService`: `calculateLocationScore`, `calculatePriceScore`,
`calculateAmenitiesScore`, `calculateConditionScore`,
`calculateResponsivenessScore`, `calculateFreshnessScore`,
`calculateMatchScore`, `findMatches`, `getSmartSuggestions`).

JavaScript numbers are modelled as exact rationals extended with `NaN`
and signed infinities (`JSNum`); numeric literals such as `1.1` are taken
at their exact rational value.  `undefined` in a numeric field is
modelled as `JSNum.nan` (it behaves as `NaN` in every arithmetic
operation and comparison, and is falsy); `null` behaves numerically as
`0`.  An absent string field is modelled as `""` (both are falsy and are
used identically by the code).  `Date.now()` is modelled by an explicit
`now : ℚ` parameter (milliseconds since the epoch), and the asynchronous
repository (`Property.findByCriteria`) by an explicit function argument
returning `Except Unit (List Property)`.
-/

set_option maxRecDepth 40000

namespace Propabridge

/-- JavaScript double values as used by the matching service: `NaN`,
signed infinity (`inf true` is `+∞`), or a finite value modelled as an
exact rational. -/
inductive JSNum where
  | nan : JSNum
  | inf : Bool → JSNum
  | fin : ℚ → JSNum
deriving DecidableEq, Repr

/-- JavaScript truthiness of a number: `NaN`, `0` (and `null`,
modelled as `fin 0`) are falsy; `undefined` is modelled as `nan`. -/
def JSNum.truthy : JSNum → Bool
  | .nan => false
  | .inf _ => true
  | .fin q => decide (q ≠ 0)

/-- JavaScript comparison `a <= b` (false whenever either side is `NaN`). -/
def JSNum.jle : JSNum → JSNum → Bool
  | .nan, _ => false
  | _, .nan => false
  | .inf false, _ => true
  | _, .inf true => true
  | .inf true, _ => false
  | _, .inf false => false
  | .fin a, .fin b => decide (a ≤ b)

/-- JavaScript comparison `a < b` (false whenever either side is `NaN`). -/
def JSNum.jlt : JSNum → JSNum → Bool
  | .nan, _ => false
  | _, .nan => false
  | .inf true, _ => false
  | _, .inf false => false
  | .inf false, _ => true
  | _, .inf true => true
  | .fin a, .fin b => decide (a < b)

/-- JavaScript subtraction on `JSNum`. -/
def JSNum.sub : JSNum → JSNum → JSNum
  | .nan, _ => .nan
  | _, .nan => .nan
  | .inf a, .inf b => if a = b then .nan else .inf a
  | .inf a, .fin _ => .inf a
  | .fin _, .inf b => .inf (!b)
  | .fin a, .fin b => .fin (a - b)

/-- JavaScript multiplication on `JSNum` (`∞ × 0 = NaN`). -/
def JSNum.mul : JSNum → JSNum → JSNum
  | .nan, _ => .nan
  | _, .nan => .nan
  | .inf a, .inf b => .inf (a = b)
  | .inf a, .fin q => if q = 0 then .nan else .inf (a = decide (0 < q))
  | .fin q, .inf b => if q = 0 then .nan else .inf (b = decide (0 < q))
  | .fin a, .fin b => .fin (a * b)

/-- JavaScript division on `JSNum` (`x / 0` is a signed infinity for
`x ≠ 0`, `0 / 0 = NaN`, `finite / ∞ = 0`). -/
def JSNum.div : JSNum → JSNum → JSNum
  | .nan, _ => .nan
  | _, .nan => .nan
  | .inf _, .inf _ => .nan
  | .inf a, .fin q => .inf (a = decide (0 ≤ q))
  | .fin _, .inf _ => .fin 0
  | .fin a, .fin b =>
      if b = 0 then (if a = 0 then .nan else .inf (decide (0 < a)))
      else .fin (a / b)

/-- JavaScript `Math.round` on a finite value: round half toward `+∞`. -/
def jsRound (q : ℚ) : ℤ := ⌊q + 1 / 2⌋

/-- JavaScript `s.includes(sub)`: `sub` occurs contiguously in `s`. -/
def jsIncludes (s sub : String) : Bool :=
  (List.range (s.toList.length + 1)).any fun i =>
    sub.toList.isPrefixOf (s.toList.drop i)

/-- JavaScript `s.toLowerCase()` (restricted to the one-character
`Char.toLower` mapping, which agrees with it on the repository's ASCII
place names and amenity tags). -/
def jsToLower (s : String) : String := ⟨s.data.map Char.toLower⟩

/-- JavaScript `s.trim()`: strip whitespace from both ends. -/
def jsTrim (s : String) : String :=
  ⟨((s.data.dropWhile Char.isWhitespace).reverse.dropWhile Char.isWhitespace).reverse⟩

/-- JavaScript `s.split(sep)` for a one-character separator, on
character lists. -/
def splitChar (sep : Char) : List Char → List (List Char)
  | [] => [[]]
  | c :: rest =>
      match splitChar sep rest with
      | [] => [[]]
      | cur :: done => if c = sep then [] :: cur :: done else (c :: cur) :: done

/-- JavaScript `s.split(sep)` for a one-character separator. -/
def jsSplit (s : String) (sep : Char) : List String :=
  (splitChar sep s.data).map fun l => ⟨l⟩

/-- A property record, restricted to the fields the matching service
reads (`location`, `price`, `amenities`, `created_at`, `verified`,
`user_id`).  `created_at` is a millisecond epoch timestamp. -/
structure Property where
  location : String
  price : JSNum
  amenities : Option (List String)
  created_at : ℚ
  verified : Bool
  user_id : ℕ
deriving DecidableEq, Repr

/-- A search-criteria object as consumed by the matching service.
Absent string fields are `""`; absent numeric fields are `JSNum.nan`. -/
structure Criteria where
  location : String
  maxPrice : JSNum
  minPrice : JSNum
  bedrooms : JSNum
  propertyType : String
  amenities : Option (List String)
deriving DecidableEq, Repr

/-- The hardcoded location alias table of `calculateLocationScore`. -/
def aliases : List (String × List String) :=
  [("wuse", ["wuse 2", "wuse2", "wuse ii"]),
   ("gwarinpa", ["gwarinpa estate", "gwagwalada"]),
   ("maitama", ["maitama district"]),
   ("v.i", ["victoria island", "vi"]),
   ("vi", ["victoria island", "v.i"]),
   ("lekki", ["lekki phase 1", "lekki phase 2", "lekki peninsula"]),
   ("gra", ["government reserved area", "g.r.a"])]

/-- The hardcoded city list of `calculateLocationScore`. -/
def cities : List String := ["abuja", "lagos", "port harcourt", "ibadan", "kano"]

/-- `calculateLocationScore(requestedLocation, propertyLocation)`:
0–100 location similarity. -/
def calculateLocationScore (requestedLocation propertyLocation : String) : ℚ :=
  if requestedLocation = "" ∨ propertyLocation = "" then 0
  else if jsIncludes (jsTrim (jsToLower propertyLocation)) (jsTrim (jsToLower requestedLocation)) ||
          jsIncludes (jsTrim (jsToLower requestedLocation)) (jsTrim (jsToLower propertyLocation)) then 100
  else if aliases.any (fun kv =>
      (jsIncludes (jsTrim (jsToLower requestedLocation)) kv.1 &&
        kv.2.any (fun v => jsIncludes (jsTrim (jsToLower propertyLocation)) v)) ||
      (jsIncludes (jsTrim (jsToLower propertyLocation)) kv.1 &&
        kv.2.any (fun v => jsIncludes (jsTrim (jsToLower requestedLocation)) v))) then 90
  else if cities.any (fun city =>
      jsIncludes (jsTrim (jsToLower requestedLocation)) city &&
      jsIncludes (jsTrim (jsToLower propertyLocation)) city) then 50
  else 0

/-- `calculatePriceScore(requestedMaxPrice, requestedMinPrice, propertyPrice)`:
0–100 price fit. -/
def calculatePriceScore (requestedMaxPrice requestedMinPrice propertyPrice : JSNum) : ℚ :=
  if !propertyPrice.truthy then 0
  else if requestedMinPrice.truthy && JSNum.jle requestedMinPrice propertyPrice &&
          JSNum.jle propertyPrice requestedMaxPrice then
    if JSNum.jle (.fin (1 / 4))
        (JSNum.div (JSNum.sub propertyPrice requestedMinPrice)
          (JSNum.sub requestedMaxPrice requestedMinPrice)) &&
       JSNum.jle
        (JSNum.div (JSNum.sub propertyPrice requestedMinPrice)
          (JSNum.sub requestedMaxPrice requestedMinPrice)) (.fin (3 / 4)) then 100
    else 90
  else if !requestedMinPrice.truthy && JSNum.jle propertyPrice requestedMaxPrice then
    if JSNum.jle (JSNum.div propertyPrice requestedMaxPrice) (.fin (4 / 5)) then 100
    else if JSNum.jle (JSNum.div propertyPrice requestedMaxPrice) (.fin (9 / 10)) then 95
    else 90
  else if JSNum.jle propertyPrice (JSNum.mul requestedMaxPrice (.fin (11 / 10))) then 70
  else if JSNum.jle propertyPrice (JSNum.mul requestedMaxPrice (.fin (6 / 5))) then 40
  else 0

/-- `calculateAmenitiesScore(requestedAmenities, propertyAmenities)`:
0–100 amenity match. -/
def calculateAmenitiesScore (requestedAmenities propertyAmenities : Option (List String)) : ℚ :=
  match requestedAmenities with
  | none => 100
  | some reqList =>
    if reqList.length = 0 then 100
    else
      match propertyAmenities with
      | none => 0
      | some propList =>
        if propList.length = 0 then 0
        else
          ((jsRound
            ((((reqList.map jsToLower).filter (fun amenity =>
                (propList.map jsToLower).any (fun p =>
                  jsIncludes p amenity || jsIncludes amenity p))).length /
              ((reqList.map jsToLower).length : ℚ)) * 100) : ℤ) : ℚ)

/-- `calculateConditionScore(createdAt, verified)`; `now` models
`Date.now()`. -/
def calculateConditionScore (createdAt : ℚ) (verified : Bool) (now : ℚ) : ℚ :=
  max
    (if (now - createdAt) / (1000 * 60 * 60 * 24) > 60 then
       (if verified then (100 : ℚ) else 60) - 20
     else if (now - createdAt) / (1000 * 60 * 60 * 24) > 30 then
       (if verified then (100 : ℚ) else 60) - 10
     else (if verified then (100 : ℚ) else 60))
    0

/-- `calculateResponsivenessScore(userId)`: a placeholder constant 80. -/
def calculateResponsivenessScore (userId : ℕ) : ℚ := 80

/-- `calculateFreshnessScore(createdAt)`; `now` models `Date.now()`. -/
def calculateFreshnessScore (createdAt : ℚ) (now : ℚ) : ℚ :=
  if (now - createdAt) / (1000 * 60 * 60 * 24) ≤ 7 then 100
  else if (now - createdAt) / (1000 * 60 * 60 * 24) ≤ 14 then 90
  else if (now - createdAt) / (1000 * 60 * 60 * 24) ≤ 30 then 70
  else if (now - createdAt) / (1000 * 60 * 60 * 24) ≤ 60 then 50
  else 30

/-- The six scoring keys, in the insertion order of the `weights`
object literal (the order `Object.keys` iterates). -/
inductive ScoreKey where
  | location | price | amenities | condition | responsiveness | freshness
deriving DecidableEq, Repr

/-- The scoring weight table of `calculateMatchScore` (sums to 100). -/
def weights : List (ScoreKey × ℚ) :=
  [(.location, 30), (.price, 25), (.amenities, 20),
   (.condition, 10), (.responsiveness, 10), (.freshness, 5)]

/-- The `scores` object built inside `calculateMatchScore`. -/
def subScore (property : Property) (criteria : Criteria) (now : ℚ) : ScoreKey → ℚ
  | .location => calculateLocationScore criteria.location property.location
  | .price => calculatePriceScore criteria.maxPrice criteria.minPrice property.price
  | .amenities => calculateAmenitiesScore criteria.amenities property.amenities
  | .condition => calculateConditionScore property.created_at property.verified now
  | .responsiveness => calculateResponsivenessScore property.user_id
  | .freshness => calculateFreshnessScore property.created_at now

/-- `calculateMatchScore(property, criteria)`: weighted reduce over the
six sub-scores, then `Math.round`. -/
def calculateMatchScore (property : Property) (criteria : Criteria) (now : ℚ) : ℤ :=
  jsRound (weights.foldl
    (fun total kw => total + subScore property criteria now kw.1 * kw.2 / 100) 0)

/-- The per-criterion breakdown attached to each ranked property. -/
structure ScoreBreakdown where
  location : ℚ
  price : ℚ
  amenities : ℚ
  condition : ℚ
  responsiveness : ℚ
  freshness : ℚ
deriving DecidableEq, Repr

/-- A property together with its `matchScore` and `scoreBreakdown`, as
built by `findMatches`. -/
structure ScoredProperty where
  property : Property
  matchScore : ℤ
  scoreBreakdown : ScoreBreakdown
deriving DecidableEq, Repr

/-- The per-property mapping step of `findMatches`: spread the property
and attach `matchScore` and `scoreBreakdown`. -/
def scoreProperty (criteria : Criteria) (now : ℚ) (property : Property) : ScoredProperty :=
  { property := property
    matchScore := calculateMatchScore property criteria now
    scoreBreakdown :=
      { location := calculateLocationScore criteria.location property.location
        price := calculatePriceScore criteria.maxPrice criteria.minPrice property.price
        amenities := calculateAmenitiesScore criteria.amenities property.amenities
        condition := calculateConditionScore property.created_at property.verified now
        responsiveness := calculateResponsivenessScore property.user_id
        freshness := calculateFreshnessScore property.created_at now } }

/-- `findMatches(criteria)`, with the repository fetch
(`Property.findByCriteria`) already performed: `properties` is the
fetched list.  Scores every property, sorts descending by `matchScore`
(JavaScript `Array.prototype.sort` is stable, modelled by
`List.mergeSort`), and keeps only scores `>= 40`. -/
def findMatches (properties : List Property) (criteria : Criteria) (now : ℚ) :
    List ScoredProperty :=
  ((properties.map (scoreProperty criteria now)).mergeSort
    (fun a b => decide (b.matchScore ≤ a.matchScore))).filter
    (fun p => decide (40 ≤ p.matchScore))

/-- The argument object passed to `Property.findByCriteria`. -/
structure RepoQuery where
  location : String
  maxPrice : JSNum
  minPrice : JSNum
  bedrooms : JSNum
  propertyType : String
deriving DecidableEq, Repr

/-- The `relaxedCriteria` entry of the suggestions object. -/
structure RelaxedCriteria where
  bedrooms : JSNum
  properties : List Property
deriving DecidableEq, Repr

/-- The suggestions object built by `getSmartSuggestions`. -/
structure Suggestions where
  nearbyAreas : List Property
  cheaperOptions : List Property
  premiumOptions : List Property
  relaxedCriteria : Option RelaxedCriteria
deriving DecidableEq, Repr

/-- The initial suggestions object (all sub-lists empty,
`relaxedCriteria = null`). -/
def defaultSuggestions : Suggestions :=
  { nearbyAreas := [], cheaperOptions := [], premiumOptions := [], relaxedCriteria := none }

/-- The city derivation of the nearby-areas step:
`criteria.location.split(',')[1]?.trim() || criteria.location`. -/
def cityOf (loc : String) : String :=
  match (jsSplit loc ',').get? 1 with
  | some s => if jsTrim s = "" then loc else jsTrim s
  | none => loc

/-- The nearby-areas step of `getSmartSuggestions`.  An `Except.error`
result carries the suggestions object as built when the repository
call threw (the enclosing `try`/`catch` returns it). -/
def stepNearby (repo : RepoQuery → Except Unit (List Property)) (criteria : Criteria)
    (s : Suggestions) : Except Suggestions Suggestions :=
  if criteria.location = "" then .ok s
  else
    match repo { location := cityOf criteria.location, maxPrice := criteria.maxPrice,
                 minPrice := .nan, bedrooms := criteria.bedrooms, propertyType := "" } with
    | .error _ => .error s
    | .ok cityProperties =>
        .ok { s with nearbyAreas :=
          (cityProperties.filter (fun p =>
            !(jsIncludes (jsToLower p.location) (jsToLower criteria.location)))).take 3 }

/-- The cheaper-options step of `getSmartSuggestions` (`maxPrice`
reduced to 80%). -/
def stepCheaper (repo : RepoQuery → Except Unit (List Property)) (criteria : Criteria)
    (s : Suggestions) : Except Suggestions Suggestions :=
  if !criteria.maxPrice.truthy then .ok s
  else
    match repo { location := criteria.location,
                 maxPrice := JSNum.mul criteria.maxPrice (.fin (4 / 5)),
                 minPrice := .nan, bedrooms := criteria.bedrooms, propertyType := "" } with
    | .error _ => .error s
    | .ok cheaperProperties => .ok { s with cheaperOptions := cheaperProperties.take 3 }

/-- The premium-options step of `getSmartSuggestions` (price range
shifted to `[maxPrice, maxPrice * 1.2]`). -/
def stepPremium (repo : RepoQuery → Except Unit (List Property)) (criteria : Criteria)
    (s : Suggestions) : Except Suggestions Suggestions :=
  if !criteria.maxPrice.truthy then .ok s
  else
    match repo { location := criteria.location,
                 maxPrice := JSNum.mul criteria.maxPrice (.fin (6 / 5)),
                 minPrice := criteria.maxPrice, bedrooms := criteria.bedrooms,
                 propertyType := "" } with
    | .error _ => .error s
    | .ok premiumProperties => .ok { s with premiumOptions := premiumProperties.take 3 }

/-- The relaxed-criteria step of `getSmartSuggestions` (bedrooms reduced
by one, only when `criteria.bedrooms > 1`). -/
def stepRelaxed (repo : RepoQuery → Except Unit (List Property)) (criteria : Criteria)
    (s : Suggestions) : Except Suggestions Suggestions :=
  if criteria.bedrooms.truthy && JSNum.jlt (.fin 1) criteria.bedrooms then
    match repo { location := criteria.location, maxPrice := criteria.maxPrice,
                 minPrice := .nan, bedrooms := JSNum.sub criteria.bedrooms (.fin 1),
                 propertyType := "" } with
    | .error _ => .error s
    | .ok relaxedProperties =>
        .ok { s with
              relaxedCriteria := some ({ bedrooms := JSNum.sub criteria.bedrooms (.fin 1),
                                         properties := relaxedProperties.take 3 } : RelaxedCriteria) }
  else .ok s

/-- `getSmartSuggestions(criteria)` with the repository modelled as
`repo`.  The four sub-queries run sequentially inside a single
`try`/`catch`; on a repository failure the `catch` returns the
suggestions object as built so far. -/
def getSmartSuggestions (repo : RepoQuery → Except Unit (List Property))
    (criteria : Criteria) : Suggestions :=
  match (stepNearby repo criteria defaultSuggestions).bind
          (stepCheaper repo criteria) |>.bind
          (stepPremium repo criteria) |>.bind
          (stepRelaxed repo criteria) with
  | .ok s => s
  | .error s => s

/-- The listing of the spec's scenario 1 (price 2,500,000, location
"Wuse 2, Abuja", amenities parking/power/security/pool, verified,
created 2 days before evaluation; `created_at` is taken as epoch 0). -/
def scenarioProperty : Property :=
  { location := "Wuse 2, Abuja", price := .fin 2500000,
    amenities := some ["parking", "power", "security", "pool"],
    created_at := 0, verified := true, user_id := 1 }

/-- The criteria of the spec's scenario 1. -/
def scenarioCriteria : Criteria :=
  { location := "Wuse 2", maxPrice := .fin 3000000, minPrice := .nan,
    bedrooms := .fin 3, propertyType := "", amenities := some ["parking", "pool"] }

/-- The evaluation time of the spec's scenario 1: 2 days after
`scenarioProperty.created_at`. -/
def scenarioNow : ℚ := 2 * (1000 * 60 * 60 * 24)

/-- The amenities sub-criterion, written from the spec's description:
100 when no amenities are requested, 0 when amenities are requested but
the listing has none, otherwise the percentage of requested tags that
match some listing tag by case-insensitive substring containment in
either direction, rounded to the nearest integer. -/
def amenitiesScoreSpec (requestedAmenities propertyAmenities : Option (List String)) : ℚ :=
  match requestedAmenities with
  | none => 100
  | some [] => 100
  | some (r0 :: rs) =>
    match propertyAmenities with
    | none => 0
    | some [] => 0
    | some (p0 :: ps) =>
        ((jsRound ((((r0 :: rs).countP (fun a => (p0 :: ps).any (fun p =>
            jsIncludes (jsToLower p) (jsToLower a) ||
            jsIncludes (jsToLower a) (jsToLower p))) : ℚ) /
          ((r0 :: rs).length : ℚ)) * 100) : ℤ) : ℚ)

/-- The criteria used in the fault-isolation scenario for
`getSmartSuggestions`: a location and a maximum price are set. -/
def sugCriteria : Criteria :=
  { location := "Garki, Abuja", maxPrice := .fin 10, minPrice := .nan,
    bedrooms := .nan, propertyType := "", amenities := none }

/-- A property the repository returns for every successful sub-query of
the fault-isolation scenario. -/
def sugProperty : Property :=
  { location := "Asokoro, Abuja", price := .fin 9, amenities := none,
    created_at := 0, verified := true, user_id := 7 }

/-- The repository query issued by the cheaper-options step for
`sugCriteria` (`maxPrice` scaled to 80%). -/
def cheaperQuery : RepoQuery :=
  { location := "Garki, Abuja", maxPrice := .fin 8, minPrice := .nan,
    bedrooms := .nan, propertyType := "" }

/-- The repository query issued by the premium-options step for
`sugCriteria` (price range `[maxPrice, maxPrice * 1.2]`). -/
def premiumQuery : RepoQuery :=
  { location := "Garki, Abuja", maxPrice := .fin 12, minPrice := .fin 10,
    bedrooms := .nan, propertyType := "" }

/-- A repository that throws on the cheaper-options query and succeeds
(returning `[sugProperty]`) on every other query. -/
def sugRepo : RepoQuery → Except Unit (List Property) :=
  fun q => if q = cheaperQuery then .error () else .ok [sugProperty]

/- ## Helper lemmas -/

theorem jsRound_nonneg {q : ℚ} (h : 0 ≤ q) : 0 ≤ jsRound q := by
  unfold jsRound
  exact Int.le_floor.mpr (by push_cast; linarith)

theorem jsRound_le {q : ℚ} (n : ℤ) (h : q ≤ (n : ℚ)) : jsRound q ≤ n := by
  unfold jsRound
  have : ⌊q + 1 / 2⌋ < n + 1 := Int.floor_lt.mpr (by push_cast; linarith)
  omega

theorem calculateMatchScore_eq (property : Property) (criteria : Criteria) (now : ℚ) :
    calculateMatchScore property criteria now =
      jsRound ((calculateLocationScore criteria.location property.location * 30 +
        calculatePriceScore criteria.maxPrice criteria.minPrice property.price * 25 +
        calculateAmenitiesScore criteria.amenities property.amenities * 20 +
        calculateConditionScore property.created_at property.verified now * 10 +
        80 * 10 +
        calculateFreshnessScore property.created_at now * 5) / 100) := by
  unfold calculateMatchScore weights
  simp only [List.foldl_cons, List.foldl_nil, subScore, calculateResponsivenessScore]
  congr 1
  ring

theorem calculateLocationScore_bounds (a b : String) :
    0 ≤ calculateLocationScore a b ∧ calculateLocationScore a b ≤ 100 := by
  unfold calculateLocationScore
  split_ifs <;> norm_num

theorem calculatePriceScore_bounds (mx mn p : JSNum) :
    0 ≤ calculatePriceScore mx mn p ∧ calculatePriceScore mx mn p ≤ 100 := by
  unfold calculatePriceScore
  split_ifs <;> norm_num

theorem calculateAmenitiesScore_bounds (r p : Option (List String)) :
    0 ≤ calculateAmenitiesScore r p ∧ calculateAmenitiesScore r p ≤ 100 := by
  unfold calculateAmenitiesScore
  match r with
  | none => norm_num
  | some reqList =>
    by_cases hlen : reqList.length = 0
    · simp [hlen]
    · match p with
      | none => simp [hlen]
      | some propList =>
        by_cases hp : propList.length = 0
        · simp [hlen, hp]
        · simp only [hlen, hp, if_false]
          have hle : (((reqList.map jsToLower).filter (fun amenity =>
              (propList.map jsToLower).any (fun q =>
                jsIncludes q amenity || jsIncludes amenity q))).length : ℚ) ≤
              ((reqList.map jsToLower).length : ℚ) := by
            exact_mod_cast List.length_filter_le _ _
          have hpos : (0 : ℚ) < ((reqList.map jsToLower).length : ℚ) := by
            simp only [List.length_map]
            exact_mod_cast Nat.pos_of_ne_zero hlen
          have hq0 : (0 : ℚ) ≤ (((reqList.map jsToLower).filter (fun amenity =>
              (propList.map jsToLower).any (fun q =>
                jsIncludes q amenity || jsIncludes amenity q))).length : ℚ) /
              ((reqList.map jsToLower).length : ℚ) * 100 := by positivity
          have hq1 : (((reqList.map jsToLower).filter (fun amenity =>
              (propList.map jsToLower).any (fun q =>
                jsIncludes q amenity || jsIncludes amenity q))).length : ℚ) /
              ((reqList.map jsToLower).length : ℚ) * 100 ≤ 100 := by
            have : (((reqList.map jsToLower).filter (fun amenity =>
                (propList.map jsToLower).any (fun q =>
                  jsIncludes q amenity || jsIncludes amenity q))).length : ℚ) /
                ((reqList.map jsToLower).length : ℚ) ≤ 1 :=
              (div_le_one hpos).mpr hle
            linarith
          constructor
          · exact_mod_cast jsRound_nonneg hq0
          · exact_mod_cast jsRound_le 100 (by exact_mod_cast hq1)

theorem calculateConditionScore_bounds (t : ℚ) (v : Bool) (now : ℚ) :
    0 ≤ calculateConditionScore t v now ∧ calculateConditionScore t v now ≤ 100 := by
  unfold calculateConditionScore
  refine ⟨le_max_right _ _, max_le ?_ (by norm_num)⟩
  split_ifs <;> norm_num

theorem calculateFreshnessScore_bounds (t now : ℚ) :
    0 ≤ calculateFreshnessScore t now ∧ calculateFreshnessScore t now ≤ 100 := by
  unfold calculateFreshnessScore
  split_ifs <;> norm_num

/- ## Claim theorems -/

/-- C1: `calculateMatchScore` equals the rounded weighted sum of the six
sub-criteria with weights location 30, price 25, amenities 20,
condition 10, responsiveness 10 (sub-score the constant 80),
freshness 5; and the spec's scenario-1 listing scored against the
scenario-1 criteria yields exactly 97. -/
theorem matchScore_is_weighted_sum_and_scenario1 :
    (∀ (property : Property) (criteria : Criteria) (now : ℚ),
      calculateMatchScore property criteria now =
        jsRound ((calculateLocationScore criteria.location property.location * 30 +
          calculatePriceScore criteria.maxPrice criteria.minPrice property.price * 25 +
          calculateAmenitiesScore criteria.amenities property.amenities * 20 +
          calculateConditionScore property.created_at property.verified now * 10 +
          80 * 10 +
          calculateFreshnessScore property.created_at now * 5) / 100)) ∧
    calculateMatchScore scenarioProperty scenarioCriteria scenarioNow = 97 := by
  constructor
  · exact calculateMatchScore_eq
  · with_unfolding_all decide

/-- C2: for every listing, criteria and evaluation time, the overall
match score is an integer in the closed interval [0, 100] (the result
type of `calculateMatchScore` is `ℤ`). -/
theorem matchScore_in_range (property : Property) (criteria : Criteria) (now : ℚ) :
    0 ≤ calculateMatchScore property criteria now ∧
    calculateMatchScore property criteria now ≤ 100 := by
  rw [calculateMatchScore_eq]
  obtain ⟨l0, l1⟩ := calculateLocationScore_bounds criteria.location property.location
  obtain ⟨p0, p1⟩ := calculatePriceScore_bounds criteria.maxPrice criteria.minPrice property.price
  obtain ⟨a0, a1⟩ := calculateAmenitiesScore_bounds criteria.amenities property.amenities
  obtain ⟨c0, c1⟩ := calculateConditionScore_bounds property.created_at property.verified now
  obtain ⟨f0, f1⟩ := calculateFreshnessScore_bounds property.created_at now
  constructor
  · exact jsRound_nonneg (by linarith)
  · exact jsRound_le 100 (by push_cast; linarith)

/-- C3: with a maximum price set (a nonzero finite number), no minimum
price, and a positive listing price, the price sub-score follows the
spec's piecewise thresholds: 100 up to 0.8×max, 95 up to 0.9×max, 90 up
to max, 70 up to 1.1×max, 40 up to 1.2×max, and 0 beyond. -/
theorem priceScore_piecewise (m p : ℚ) (mn : JSNum)
    (hm : m ≠ 0) (hmn : mn.truthy = false) (hp : 0 < p) :
    calculatePriceScore (.fin m) mn (.fin p) =
      if p ≤ 4 / 5 * m then 100
      else if p ≤ 9 / 10 * m then 95
      else if p ≤ m then 90
      else if p ≤ 11 / 10 * m then 70
      else if p ≤ 6 / 5 * m then 40
      else 0 := by
  unfold calculatePriceScore
  rw [hmn]
  simp only [JSNum.truthy, JSNum.jle, JSNum.div, JSNum.mul, Bool.false_and,
    Bool.not_false, Bool.true_and, ne_eq, hp.ne', not_false_eq_true, decide_True,
    if_neg hm, decide_eq_true_eq]
  norm_num
  rcases lt_or_gt_of_ne hm with hneg | hpos
  · split_ifs <;> first | rfl | linarith
  · simp only [div_le_iff hpos]
    split_ifs <;> first | rfl | linarith

/-- Witness for C3 at a concrete boundary input: a listing priced at
1.15 times a maximum price of 1,000,000 scores 40. -/
theorem priceScore_piecewise_witness :
    calculatePriceScore (.fin 1000000) JSNum.nan (.fin 1150000) = 40 := by
  have h := priceScore_piecewise 1000000 1150000 JSNum.nan
    (by norm_num) (by with_unfolding_all decide) (by norm_num)
  rw [h]
  norm_num

/-- C4: every ranked result has `matchScore ≥ 40`, and the ranked
sequence is ordered by descending `matchScore`. -/
theorem findMatches_threshold_and_sorted (ps : List Property) (c : Criteria) (now : ℚ) :
    (∀ x ∈ findMatches ps c now, 40 ≤ x.matchScore) ∧
    (findMatches ps c now).Pairwise (fun x y => y.matchScore ≤ x.matchScore) := by
  constructor
  · intro x hx
    unfold findMatches at hx
    have := List.of_mem_filter hx
    simpa using this
  · unfold findMatches
    have hs := @List.sorted_mergeSort ScoredProperty
      (fun u v : ScoredProperty => decide (v.matchScore ≤ u.matchScore))
      (fun u v w huv hvw => by
        simp only [decide_eq_true_eq] at huv hvw ⊢
        omega)
      (fun u v => by
        simp only [Bool.or_eq_true, decide_eq_true_eq]
        exact Int.le_total v.matchScore u.matchScore)
      (ps.map (scoreProperty c now))
    exact (List.Pairwise.sublist (List.filter_sublist _) hs).imp (by
      intro u v h
      simpa using h)

/-- C5: ranking is stable: two listings with equal match scores (both
passing the threshold) appear in the output in their input order. -/
theorem findMatches_stable (l1 l2 l3 : List Property) (a b : Property)
    (c : Criteria) (now : ℚ)
    (hscore : calculateMatchScore a c now = calculateMatchScore b c now)
    (h40 : 40 ≤ calculateMatchScore a c now) :
    List.Sublist [scoreProperty c now a, scoreProperty c now b]
      (findMatches (l1 ++ a :: l2 ++ b :: l3) c now) := by
  unfold findMatches
  have hin : List.Sublist [a, b] (l1 ++ a :: l2 ++ b :: l3) := by
    have h1 : List.Sublist [a] (l1 ++ a :: l2) :=
      List.sublist_append_of_sublist_right (List.Sublist.cons₂ a (List.nil_sublist l2))
    have h2 : List.Sublist [b] (b :: l3) := List.Sublist.cons₂ b (List.nil_sublist l3)
    exact h1.append h2
  have hmap : List.Sublist [scoreProperty c now a, scoreProperty c now b]
      ((l1 ++ a :: l2 ++ b :: l3).map (scoreProperty c now)) := by
    simpa using hin.map (scoreProperty c now)
  have hpair := @List.pair_sublist_mergeSort ScoredProperty
    (fun u v : ScoredProperty => decide (v.matchScore ≤ u.matchScore)) _ _ _
    (fun u v w huv hvw => by
      simp only [decide_eq_true_eq] at huv hvw ⊢
      omega)
    (fun u v => by
      simp only [Bool.or_eq_true, decide_eq_true_eq]
      exact Int.le_total v.matchScore u.matchScore)
    (by
      simp only [decide_eq_true_eq]
      show calculateMatchScore b c now ≤ calculateMatchScore a c now
      omega)
    hmap
  have hfil := hpair.filter (fun x => decide (40 ≤ x.matchScore))
  have ha : (decide (40 ≤ (scoreProperty c now a).matchScore)) = true := by
    simpa [scoreProperty] using h40
  have hb : (decide (40 ≤ (scoreProperty c now b).matchScore)) = true := by
    simp only [scoreProperty]
    simp only [decide_eq_true_eq]
    omega
  simpa [List.filter, ha, hb] using hfil

/-- Witness for C5: two listings differing only in `user_id`, both
scoring 43 under empty criteria, come out of `findMatches` in their
input order. -/
theorem findMatches_stable_witness :
    List.Sublist [scoreProperty
        { location := "", maxPrice := JSNum.nan, minPrice := JSNum.nan,
          bedrooms := JSNum.nan, propertyType := "", amenities := none } 0
        { location := "", price := JSNum.nan, amenities := none,
          created_at := 0, verified := true, user_id := 1 },
     scoreProperty
        { location := "", maxPrice := JSNum.nan, minPrice := JSNum.nan,
          bedrooms := JSNum.nan, propertyType := "", amenities := none } 0
        { location := "", price := JSNum.nan, amenities := none,
          created_at := 0, verified := true, user_id := 2 }]
      (findMatches
        [{ location := "", price := JSNum.nan, amenities := none,
           created_at := 0, verified := true, user_id := 1 },
         { location := "", price := JSNum.nan, amenities := none,
           created_at := 0, verified := true, user_id := 2 }]
        { location := "", maxPrice := JSNum.nan, minPrice := JSNum.nan,
          bedrooms := JSNum.nan, propertyType := "", amenities := none } 0) := by
  have h := findMatches_stable [] [] []
    { location := "", price := JSNum.nan, amenities := none,
      created_at := 0, verified := true, user_id := 1 }
    { location := "", price := JSNum.nan, amenities := none,
      created_at := 0, verified := true, user_id := 2 }
    { location := "", maxPrice := JSNum.nan, minPrice := JSNum.nan,
      bedrooms := JSNum.nan, propertyType := "", amenities := none } 0
    (by with_unfolding_all decide) (by with_unfolding_all decide)
  simpa using h

/-- C6: the amenities sub-score agrees with the spec's description:
100 when no amenities are requested (unset or empty), 0 when amenities
are requested but the listing has none, otherwise the rounded
percentage of requested tags matched case-insensitively by substring
containment in either direction. -/
theorem amenitiesScore_matches_spec (r p : Option (List String)) :
    calculateAmenitiesScore r p = amenitiesScoreSpec r p := by
  unfold calculateAmenitiesScore amenitiesScoreSpec
  match r with
  | none => rfl
  | some [] => simp
  | some (r0 :: rs) =>
    match p with
    | none => simp
    | some [] => simp
    | some (p0 :: ps) =>
      simp only [List.length_cons, Nat.succ_ne_zero, if_false, List.length_map,
        ← List.countP_eq_length_filter, List.countP_map, List.any_map,
        Function.comp_def]

/-- C7 counterexample: `calculateMatchScore` reads the ambient clock
(`Date.now()`): the same listing and criteria scored at two different
times produce different scores (43 at the creation instant, 38 a
hundred days later), so the output is not a function of (L, C) alone. -/
theorem matchScore_depends_on_clock :
    calculateMatchScore
        { location := "", price := JSNum.nan, amenities := none,
          created_at := 0, verified := true, user_id := 1 }
        { location := "", maxPrice := JSNum.nan, minPrice := JSNum.nan,
          bedrooms := JSNum.nan, propertyType := "", amenities := none } 0 ≠
      calculateMatchScore
        { location := "", price := JSNum.nan, amenities := none,
          created_at := 0, verified := true, user_id := 1 }
        { location := "", maxPrice := JSNum.nan, minPrice := JSNum.nan,
          bedrooms := JSNum.nan, propertyType := "", amenities := none }
        (100 * (1000 * 60 * 60 * 24)) := by
  with_unfolding_all decide

/-- C7 (amended): once the evaluation time is included as an input, the
score is a pure function: it is determined by the criteria, the
evaluation time, and the listing's location, price, amenities,
creation timestamp and verified flag — in particular it never depends
on `user_id` (the responsiveness sub-score is the constant 80) or any
other ambient state. -/
theorem matchScore_deterministic (L1 L2 : Property) (c1 c2 : Criteria) (t1 t2 : ℚ)
    (hloc : L1.location = L2.location) (hprice : L1.price = L2.price)
    (ham : L1.amenities = L2.amenities) (hcre : L1.created_at = L2.created_at)
    (hver : L1.verified = L2.verified) (hc : c1 = c2) (ht : t1 = t2) :
    calculateMatchScore L1 c1 t1 = calculateMatchScore L2 c2 t2 := by
  subst hc ht
  rw [calculateMatchScore_eq, calculateMatchScore_eq, hloc, hprice, ham, hcre, hver]

/-- Witness for C7 (amended): two listings differing only in `user_id`
receive the same score. -/
theorem matchScore_deterministic_witness :
    calculateMatchScore
        { location := "Wuse 2, Abuja", price := JSNum.fin 2500000, amenities := none,
          created_at := 0, verified := true, user_id := 1 }
        { location := "Wuse 2", maxPrice := JSNum.fin 3000000, minPrice := JSNum.nan,
          bedrooms := JSNum.nan, propertyType := "", amenities := none } 0 =
      calculateMatchScore
        { location := "Wuse 2, Abuja", price := JSNum.fin 2500000, amenities := none,
          created_at := 0, verified := true, user_id := 99 }
        { location := "Wuse 2", maxPrice := JSNum.fin 3000000, minPrice := JSNum.nan,
          bedrooms := JSNum.nan, propertyType := "", amenities := none } 0 :=
  matchScore_deterministic _ _ _ _ _ _ rfl rfl rfl rfl rfl rfl rfl

/-- C8: the sub-queries of `getSmartSuggestions` are not fault-isolated:
with `sugCriteria`, a repository that throws only on the cheaper-options
query (`sugRepo`) yields empty `premiumOptions` and null
`relaxedCriteria`, even though the very same repository answers the
premium-options query successfully (and a fully successful repository
yields a non-empty `premiumOptions`); only the nearby-areas sub-list,
computed before the failure, survives. -/
theorem getSmartSuggestions_not_isolated :
    sugRepo premiumQuery = .ok [sugProperty] ∧
    (getSmartSuggestions sugRepo sugCriteria).nearbyAreas = [sugProperty] ∧
    (getSmartSuggestions sugRepo sugCriteria).premiumOptions = [] ∧
    (getSmartSuggestions sugRepo sugCriteria).relaxedCriteria = none ∧
    (getSmartSuggestions (fun _ => .ok [sugProperty]) sugCriteria).premiumOptions =
      [sugProperty] := by
  refine ⟨?_, ?_⟩
  · show (if premiumQuery = cheaperQuery then Except.error () else Except.ok [sugProperty]) =
      Except.ok [sugProperty]
    rw [if_neg (by with_unfolding_all decide)]
  · with_unfolding_all decide

/-- C9: `calculateLocationScore` is symmetric in its two arguments. -/
theorem locationScore_symm (a b : String) :
    calculateLocationScore a b = calculateLocationScore b a := by
  unfold calculateLocationScore
  have h1 : (a = "" ∨ b = "") ↔ (b = "" ∨ a = "") := or_comm
  have h2 : (jsIncludes (jsTrim (jsToLower b)) (jsTrim (jsToLower a)) ||
      jsIncludes (jsTrim (jsToLower a)) (jsTrim (jsToLower b))) =
      (jsIncludes (jsTrim (jsToLower a)) (jsTrim (jsToLower b)) ||
      jsIncludes (jsTrim (jsToLower b)) (jsTrim (jsToLower a))) := Bool.or_comm _ _
  have h3 : (aliases.any (fun kv =>
      (jsIncludes (jsTrim (jsToLower a)) kv.1 &&
        kv.2.any (fun v => jsIncludes (jsTrim (jsToLower b)) v)) ||
      (jsIncludes (jsTrim (jsToLower b)) kv.1 &&
        kv.2.any (fun v => jsIncludes (jsTrim (jsToLower a)) v)))) =
      (aliases.any (fun kv =>
      (jsIncludes (jsTrim (jsToLower b)) kv.1 &&
        kv.2.any (fun v => jsIncludes (jsTrim (jsToLower a)) v)) ||
      (jsIncludes (jsTrim (jsToLower a)) kv.1 &&
        kv.2.any (fun v => jsIncludes (jsTrim (jsToLower b)) v)))) :=
    congrArg aliases.any (funext fun kv => Bool.or_comm _ _)
  have h4 : (cities.any (fun city =>
      jsIncludes (jsTrim (jsToLower a)) city &&
      jsIncludes (jsTrim (jsToLower b)) city)) =
      (cities.any (fun city =>
      jsIncludes (jsTrim (jsToLower b)) city &&
      jsIncludes (jsTrim (jsToLower a)) city)) :=
    congrArg cities.any (funext fun city => Bool.and_comm _ _)
  rw [h2, h3, h4]
  simp only [h1]

/-- C10 counterexample: with `maxPrice = 0` (an absent/falsy maximum),
no minimum, and the negative listing price −5, `calculatePriceScore`
returns 100 (via `-5 / 0 = -Infinity ≤ 0.8`), not 0 as the claim
states for every listing price. -/
theorem priceScore_noMax_counterexample :
    calculatePriceScore (JSNum.fin 0) JSNum.nan (JSNum.fin (-5)) = 100 := by
  with_unfolding_all decide

/-- C10 (amended): whenever `maxPrice` is absent (undefined, null or 0),
`calculatePriceScore` returns 0 for every positive listing price and
every `minPrice`. -/
theorem priceScore_noMax (mx mn : JSNum) (p : ℚ)
    (hmx : mx = JSNum.nan ∨ mx = JSNum.fin 0) (hp : 0 < p) :
    calculatePriceScore mx mn (JSNum.fin p) = 0 := by
  rcases hmx with h | h <;> subst h <;> unfold calculatePriceScore <;>
    simp [JSNum.truthy, JSNum.jle, JSNum.mul, hp.ne', hp.not_le,
      Bool.and_comm, Bool.and_assoc]

/-- Witness for C10 (amended): `maxPrice = 0` with a set `minPrice` and
a positive price still scores 0. -/
theorem priceScore_noMax_witness :
    calculatePriceScore (JSNum.fin 0) (JSNum.fin 500) (JSNum.fin 5) = 0 :=
  priceScore_noMax (JSNum.fin 0) (JSNum.fin 500) 5 (Or.inr rfl) (by norm_num)

end Propabridge
